import Mathlib

/-!
Shallow embedding of the weather-forecast pipeline
(`src/weather_forcast/forecast.py`) and proofs about it.

Conventions of the embedding:
* pandas cell values are `Option ℚ`: `some q` is an ordinary number, `none`
  is NaN / a missing value.  Comparisons against NaN are `false`, as in
  numpy (`NaN < x` is `False`).
* timestamps are modelled as rational day numbers; adding one day is `+ 1`.
* external library numerics with no bearing on any claim's truth value
  (numpy `sin`/`cos`/`sqrt`, the constant `pi`, and the pandas datetime
  accessors `month` / `dayofyear` / `dayofweek`) are abstracted into a
  `NumOps` parameter: every theorem holds for all instantiations.  What the
  embedding does keep exact is their NaN behaviour: all of them are total
  (non-NaN on non-NaN input), which is what the dropna semantics depends on.
* the gradient-boosting estimators are black boxes (as the spec declares):
  a trained estimator is an arbitrary function from a model-input row to ℚ.
* fallible Python code (raising `ValueError`) becomes `Except String`.
-/

deriving instance DecidableEq for Except

namespace WeatherForecast

/-- External numeric primitives used by `forecast.py`:
`np.sin`, `np.cos`, the square root used inside pandas' rolling std,
`np.pi`, and the pandas `DatetimeIndex` accessors. -/
structure NumOps where
  sin : ℚ → ℚ
  cos : ℚ → ℚ
  sqrt : ℚ → ℚ
  pi : ℚ
  month : ℚ → ℚ
  dayOfYear : ℚ → ℚ
  dayOfWeek : ℚ → ℚ

/-- A trivial instantiation of the external numerics, used only to build
concrete witnesses; every theorem is quantified over all instantiations. -/
def trivOps : NumOps :=
  { sin := id, cos := id, sqrt := id, pi := 3, month := id,
    dayOfYear := id, dayOfWeek := id }

/-- `TARGETS = ['temperature', 'humidity', 'pressure']` (forecast.py line 28). -/
def TARGETS : List String := ["temperature", "humidity", "pressure"]

/-- A raw column-oriented table as handed to `validate_data`: named columns,
each a list of cells (`none` = NaN).  The `time` column's entries are the
timestamps, encoded as rational day numbers inside `some _` cells. -/
structure RawDF where
  columns : List (String × List (Option ℚ))
deriving DecidableEq

/-- `col in df.columns`. -/
def RawDF.hasCol (df : RawDF) (c : String) : Bool :=
  df.columns.any (fun p => p.1 = c)

/-- `df[c]`: the cell list of column `c` (empty when absent; every use in
the source is guarded by the required-columns check). -/
def RawDF.colVals (df : RawDF) (c : String) : List (Option ℚ) :=
  ((df.columns.find? (fun p => p.1 = c)).map Prod.snd).getD []

/-- `(df[c] < b).any()`: numpy comparison of a column against a scalar;
NaN cells compare `False`. -/
def anyLt (xs : List (Option ℚ)) (b : ℚ) : Bool :=
  xs.any (fun x => match x with | some q => decide (q < b) | none => false)

/-- `(df[c] > b).any()`. -/
def anyGt (xs : List (Option ℚ)) (b : ℚ) : Bool :=
  xs.any (fun x => match x with | some q => decide (b < q) | none => false)

/-- `validate_data` (forecast.py lines 37-59): required-columns check, then
per-target hard-coded range checks.  Pure: it only reads `df`. -/
def validate_data (df : RawDF) : Except String Unit :=
  let required := ["time"] ++ TARGETS
  let missing_columns := required.filter (fun c => ! df.hasCol c)
  if missing_columns ≠ [] then
    .error "Missing required columns"
  else if anyLt (df.colVals "temperature") (8/5) ||
          anyGt (df.colVals "temperature") (103/5) then
    .error "Temperature values out of observed range (1.6 to 20.6)"
  else if anyLt (df.colVals "humidity") 40 ||
          anyGt (df.colVals "humidity") 96 then
    .error "Humidity values out of observed range (40 to 96)"
  else if anyLt (df.colVals "pressure") (9981/10) ||
          anyGt (df.colVals "pressure") (10327/10) then
    .error "Pressure values out of observed range (998.1 to 1032.7)"
  else
    .ok ()

/-- One row of the time-indexed frame produced by `load_data`
(`set_index('time')`): the timestamp index, the three target cells, and all
remaining columns (name, cell) in their original order. -/
structure Row where
  time : ℚ
  temperature : Option ℚ
  humidity : Option ℚ
  pressure : Option ℚ
  extra : List (String × Option ℚ)
deriving DecidableEq, Inhabited

/-- Names of the non-index columns of `df` other than the three targets. -/
def RawDF.extraCols (df : RawDF) : List String :=
  (df.columns.map Prod.fst).filter (fun c => c ≠ "time" ∧ ¬ TARGETS.contains c)

/-- Row `i` of the indexed frame built by `set_index('time')`.  A NaT
timestamp (NaN in the `time` column) is coerced to day 0; no claim and no
counterexample in this file involves NaT. -/
def RawDF.rowAt (df : RawDF) (i : Nat) : Row :=
  { time := (((df.colVals "time").getD i none).getD 0)
    temperature := (df.colVals "temperature").getD i none
    humidity := (df.colVals "humidity").getD i none
    pressure := (df.colVals "pressure").getD i none
    extra := df.extraCols.map (fun c => (c, (df.colVals c).getD i none)) }

/-- The list of rows of the indexed frame, one per entry of the `time`
column (all columns of a DataFrame have equal length). -/
def RawDF.rows (df : RawDF) : List Row :=
  (List.range (df.colVals "time").length).map df.rowAt

/-- `df.isnull().any().any()` after `set_index('time')`: the index itself is
not part of `isnull`, so only the target and extra cells are inspected. -/
def Row.hasMissing (r : Row) : Bool :=
  r.temperature = none ∨ r.humidity = none ∨ r.pressure = none ∨
    r.extra.any (fun p => p.2 = none)

/-- `load_data` (forecast.py lines 62-88) minus the file I/O: validate,
index by `time`, sort ascending by the index, reject missing values.
`sort_index` is modelled with a stable sort on the timestamp (the sorting
algorithm itself is a pandas internal). -/
def load_data (df : RawDF) : Except String (List Row) :=
  match validate_data df with
  | .error e => .error e
  | .ok _ =>
    let rows := List.insertionSort (fun a b => a.time ≤ b.time) df.rows
    if rows.any Row.hasMissing then
      .error "Input data contains missing values"
    else
      .ok rows

/-! ## Feature engineering (`make_features`, forecast.py lines 91-135) -/

/-- The five per-target derived features of one feature row:
`{col}_rolling_mean_7d`, `{col}_rolling_std_7d`, `{col}_rolling_min_7d`,
`{col}_rolling_max_7d` (lines 116-123) and `{col}_lag_1` (line 127).
`none` is NaN. -/
structure TStats where
  rolling_mean_7d : Option ℚ
  rolling_std_7d : Option ℚ
  rolling_min_7d : Option ℚ
  rolling_max_7d : Option ℚ
  lag_1 : Option ℚ
deriving DecidableEq, Inhabited

/-- The non-NaN observations inside the trailing window of length 7 ending
at position `i` of a column (`rolling(window=7, min_periods=1)`): pandas
rolling aggregations skip NaN cells and count only the remaining
observations against `min_periods`. -/
def rollingObs (vals : List (Option ℚ)) (i : Nat) : List ℚ :=
  ((List.range (i + 1)).filter (fun j => i ≤ j + 6)).filterMap
    (fun j => vals.getD j none)

/-- Sample mean of a list of observations (used by rolling mean and inside
the rolling std). -/
def sampleMean (xs : List ℚ) : ℚ := xs.sum / xs.length

/-- Sample variance with `ddof = 1` (the pandas default for rolling std). -/
def sampleVar (xs : List ℚ) : ℚ :=
  (xs.map (fun x => (x - sampleMean xs) ^ 2)).sum / ((xs.length : ℚ) - 1)

/-- The five derived statistics of one target column at position `i`:
rolling mean/min/max are NaN only on an empty observation window
(impossible with `min_periods=1` and a non-NaN column), the rolling std is
additionally NaN when the window holds fewer than two observations, and the
lag is the raw cell one position earlier (`shift(1)`), NaN at position 0. -/
def statsAt (ops : NumOps) (vals : List (Option ℚ)) (i : Nat) : TStats :=
  let obs := rollingObs vals i
  { rolling_mean_7d := if obs = [] then none else some (sampleMean obs)
    rolling_std_7d := if 2 ≤ obs.length then some (ops.sqrt (sampleVar obs))
                      else none
    rolling_min_7d := obs.min?
    rolling_max_7d := obs.max?
    lag_1 := if i = 0 then none else vals.getD (i - 1) none }

/-- One row of the table returned by `make_features`, after the helper
columns `month` / `day_of_year` / `day_of_week` are dropped again
(line 130): the original index and columns (the copy at line 102), the four
seasonal encodings (lines 110-113), and the per-target statistics. -/
@[ext]
structure FRow where
  time : ℚ
  temperature : Option ℚ
  humidity : Option ℚ
  pressure : Option ℚ
  extra : List (String × Option ℚ)
  sin_month : ℚ
  cos_month : ℚ
  sin_day : ℚ
  cos_day : ℚ
  temperatureS : TStats
  humidityS : TStats
  pressureS : TStats
deriving DecidableEq, Inhabited

/-- The feature row computed for position `i` of the indexed frame `rows`
(before the final `dropna`).  The intermediate columns `month`,
`day_of_year` and `day_of_week` of lines 105-107 are functions of the
timestamp alone; `day_of_week` feeds nothing and is dropped at line 130, so
it does not appear here. -/
def featureRowAt (ops : NumOps) (rows : List Row) (i : Nat) : FRow :=
  let r := rows.getD i default
  let month := ops.month r.time
  let day_of_year := ops.dayOfYear r.time
  { time := r.time
    temperature := r.temperature
    humidity := r.humidity
    pressure := r.pressure
    extra := r.extra
    sin_month := ops.sin (2 * ops.pi * month / 12)
    cos_month := ops.cos (2 * ops.pi * month / 12)
    sin_day := ops.sin (2 * ops.pi * day_of_year / 365)
    cos_day := ops.cos (2 * ops.pi * day_of_year / 365)
    temperatureS := statsAt ops (rows.map Row.temperature) i
    humidityS := statsAt ops (rows.map Row.humidity) i
    pressureS := statsAt ops (rows.map Row.pressure) i }

/-- Does any of the five derived statistics of one target hold a NaN? -/
def TStats.hasNaN (s : TStats) : Bool :=
  s.rolling_mean_7d = none ∨ s.rolling_std_7d = none ∨
    s.rolling_min_7d = none ∨ s.rolling_max_7d = none ∨ s.lag_1 = none

/-- Does the feature row hold a NaN in any column?  The seasonal encodings
are plain rationals (sine/cosine of a number is never NaN), so only the raw
cells and the derived statistics can be NaN — this is what `dropna`
(line 133) tests. -/
def FRow.hasNaN (fr : FRow) : Bool :=
  fr.temperature = none ∨ fr.humidity = none ∨ fr.pressure = none ∨
    fr.extra.any (fun p => p.2 = none) ∨
    fr.temperatureS.hasNaN ∨ fr.humidityS.hasNaN ∨ fr.pressureS.hasNaN

/-- `make_features` (forecast.py lines 91-135): compute every feature row,
then `dropna()`. -/
def make_features (ops : NumOps) (rows : List Row) : List FRow :=
  ((List.range rows.length).map (featureRowAt ops rows)).filter
    (fun fr => ! fr.hasNaN)

/-! ## Models and forecasting (`train_model`, `predict_days`) -/

/-- A model-input row: a feature row after `drop(TARGETS, axis=1)`
(forecast.py lines 179-180 and 287) — the three raw target columns are
removed, everything else (extra columns included) stays. -/
structure XRow where
  extra : List (String × Option ℚ)
  sin_month : ℚ
  cos_month : ℚ
  sin_day : ℚ
  cos_day : ℚ
  temperatureS : TStats
  humidityS : TStats
  pressureS : TStats
deriving DecidableEq, Inhabited

/-- `frow.drop(TARGETS, axis=1)` (the index is not a feature column either,
sklearn never sees it). -/
def FRow.dropTargets (fr : FRow) : XRow :=
  { extra := fr.extra
    sin_month := fr.sin_month
    cos_month := fr.cos_month
    sin_day := fr.sin_day
    cos_day := fr.cos_day
    temperatureS := fr.temperatureS
    humidityS := fr.humidityS
    pressureS := fr.pressureS }

/-- The model-input matrix used to train every estimator
(`X_train = train_data.drop(TARGETS, axis=1)`, forecast.py lines 174-179):
the first 80% of the feature table (chronological split, `int(len * 0.8)`
floors), targets dropped. -/
def train_X (ops : NumOps) (rows : List Row) : List XRow :=
  let features := make_features ops rows
  let train_size := (4 * features.length) / 5
  (features.take train_size).map FRow.dropTargets

/-- A trained black-box estimator (the spec treats the gradient-boosting
regressor as an external collaborator with `predict(X) -> value`). -/
def Model : Type := XRow → ℚ

/-- The three estimators trained for one target (`lower` at quantile 0.1,
`pred` with squared error, `upper` at quantile 0.9). -/
structure TargetModels where
  lower : Model
  pred : Model
  upper : Model

/-- A complete model set: three estimators for each of the three targets —
the `models` dictionary of `train_model` / `predict_days`.  Completeness is
by construction here, so every `ModelSet` is what the spec calls a complete
model set. -/
structure ModelSet where
  temperature : TargetModels
  humidity : TargetModels
  pressure : TargetModels

/-- One emitted forecast row (`day_predictions` plus `target_date`,
forecast.py lines 284-294). -/
structure ForecastPoint where
  temperature_pred : ℚ
  temperature_low : ℚ
  temperature_high : ℚ
  humidity_pred : ℚ
  humidity_low : ℚ
  humidity_high : ℚ
  pressure_pred : ℚ
  pressure_low : ℚ
  pressure_high : ℚ
  target_date : ℚ
deriving DecidableEq, Inhabited

/-- One iteration of the rollout loop (forecast.py lines 282-300) for loop
counter `day`: drop targets from the carried feature vector, predict the
nine values, stamp `target_date = lastDate + (day + 1)`, then write the
three central predictions into the carried vector's lag fields.  Returns
the emitted point and the updated carried vector. -/
def stepDay (model : ModelSet) (lastDate : ℚ) (day : Nat) (cur : FRow) :
    ForecastPoint × FRow :=
  let x := cur.dropTargets
  let p : ForecastPoint :=
    { temperature_pred := model.temperature.pred x
      temperature_low := model.temperature.lower x
      temperature_high := model.temperature.upper x
      humidity_pred := model.humidity.pred x
      humidity_low := model.humidity.lower x
      humidity_high := model.humidity.upper x
      pressure_pred := model.pressure.pred x
      pressure_low := model.pressure.lower x
      pressure_high := model.pressure.upper x
      target_date := lastDate + ((day : ℚ) + 1) }
  let cur' : FRow :=
    { cur with
      temperatureS := { cur.temperatureS with lag_1 := some p.temperature_pred }
      humidityS := { cur.humidityS with lag_1 := some p.humidity_pred }
      pressureS := { cur.pressureS with lag_1 := some p.pressure_pred } }
  (p, cur')

/-- The rollout loop `for day in range(days_ahead)` unrolled: emit `n` more
points starting at loop counter `day`, threading the carried feature
vector. -/
def rolloutFrom (model : ModelSet) (lastDate : ℚ) (day : Nat) (cur : FRow) :
    Nat → List ForecastPoint
  | 0 => []
  | n + 1 =>
    let pc := stepDay model lastDate day cur
    pc.1 :: rolloutFrom model lastDate (day + 1) pc.2 n

/-- The carried feature vector after `k` iterations of the rollout loop
that started at loop counter `day` with vector `cur` (the value of
`current_features` entering iteration `day + k`). -/
def carried (model : ModelSet) (lastDate : ℚ) (day : Nat) (cur : FRow) :
    Nat → FRow
  | 0 => cur
  | k + 1 => (stepDay model lastDate (day + k)
      (carried model lastDate day cur k)).2

/-- `predict_days` (forecast.py lines 259-302): build features from the
latest rows, seed the rollout with the final feature row
(`features.iloc[[-1]]`, an IndexError on an empty feature table), and run
the loop.  `days_ahead` is a Python int, so it may be non-positive, in
which case `range(days_ahead)` is empty; `alpha` is accepted and never
used, exactly as in the source. -/
def predict_days (model : ModelSet) (ops : NumOps) (latest_rows : List Row)
    (days_ahead : Int) (alpha : ℚ) : Except String (List ForecastPoint) :=
  let features := make_features ops latest_rows
  match features.getLast? with
  | none => .error "positional indexers are out-of-bounds"
  | some seed =>
    let lastDate := ((latest_rows.getLast?).map Row.time).getD 0
    .ok (rolloutFrom model lastDate 0 seed days_ahead.toNat)

/-! ## Derived projections used to state the claims -/

/-- No cell of the row is missing (the hypothesis of C1: "no missing values
in any column" — targets and extra columns alike). -/
def Row.allDefined (r : Row) : Bool :=
  r.temperature.isSome && r.humidity.isSome && r.pressure.isSome &&
    r.extra.all (fun p => p.2.isSome)

/-- A feature row with its three lag fields blanked: two feature rows with
equal `eraseLags` agree on every field except possibly the lags. -/
def FRow.eraseLags (fr : FRow) : FRow :=
  { fr with
    temperatureS := { fr.temperatureS with lag_1 := none }
    humidityS := { fr.humidityS with lag_1 := none }
    pressureS := { fr.pressureS with lag_1 := none } }

/-- A feature row with its extra columns blanked: two feature rows with
equal `eraseExtra` agree on every field except possibly the extras. -/
def FRow.eraseExtra (fr : FRow) : FRow :=
  { fr with extra := [] }

/-- The timestamp and target content of a row — what remains of a Reading
once arbitrary additional fields are stripped. -/
def Row.core (r : Row) : ℚ × Option ℚ × Option ℚ × Option ℚ :=
  (r.time, r.temperature, r.humidity, r.pressure)

/-! ## Concrete data for witnesses and counterexamples -/

/-- An estimator that always answers 0. -/
def zeroModel : Model := fun _ => 0

/-- An estimator that answers the value of the extra column `wind` of its
input row (0 when absent) — it shows extra columns reaching predictions. -/
def windModel : Model := fun x => ((x.extra.lookup "wind").getD none).getD 0

def zeroTM : TargetModels := ⟨zeroModel, zeroModel, zeroModel⟩

def zeroModels : ModelSet := ⟨zeroTM, zeroTM, zeroTM⟩

def windTM : TargetModels := ⟨windModel, windModel, windModel⟩

def windModels : ModelSet := ⟨windTM, windTM, windTM⟩

/-- Two fully-defined readings with no extra columns. -/
def exRows : List Row :=
  [⟨0, some 10, some 50, some 1000, []⟩,
   ⟨1, some 11, some 51, some 1001, []⟩]

/-- Three fully-defined readings carrying an extra column `wind`. -/
def exRows3 : List Row :=
  [⟨0, some 10, some 50, some 1000, [("wind", some 1)]⟩,
   ⟨1, some 11, some 51, some 1001, [("wind", some 2)]⟩,
   ⟨2, some 12, some 52, some 1002, [("wind", some 3)]⟩]

/-- Same first two readings as `exRows3`, third reading different. -/
def exRows3' : List Row :=
  [⟨0, some 10, some 50, some 1000, [("wind", some 1)]⟩,
   ⟨1, some 11, some 51, some 1001, [("wind", some 2)]⟩,
   ⟨2, some 9, some 49, some 999, [("wind", some 8)]⟩]

/-- A raw table whose second temperature cell is missing; every other cell
is present and in range, and all required columns exist. -/
def dfMissingTemp : RawDF :=
  { columns := [("time", [some 0, some 1]),
                ("temperature", [some 10, none]),
                ("humidity", [some 50, some 60]),
                ("pressure", [some 1000, some 1001])] }

/-- A raw table with a duplicated timestamp (day 0 appears twice), all
values present and in range. -/
def dfDup : RawDF :=
  { columns := [("time", [some 0, some 0, some 1]),
                ("temperature", [some 10, some 11, some 12]),
                ("humidity", [some 50, some 60, some 70]),
                ("pressure", [some 1000, some 1000, some 1000])] }

/-- The rows `load_data` produces from `dfDup`. -/
def dupRows : List Row :=
  [⟨0, some 10, some 50, some 1000, []⟩,
   ⟨0, some 11, some 60, some 1000, []⟩,
   ⟨1, some 12, some 70, some 1000, []⟩]

/-- Three readings with constant extra column `wind = 5`. -/
def extraRowsA : List Row :=
  [⟨0, some 10, some 50, some 1000, [("wind", some 5)]⟩,
   ⟨1, some 11, some 51, some 1001, [("wind", some 5)]⟩,
   ⟨2, some 12, some 52, some 1002, [("wind", some 5)]⟩]

/-- The same readings as `extraRowsA` on timestamp and all three targets,
with different values in the extra column `wind`. -/
def extraRowsB : List Row :=
  [⟨0, some 10, some 50, some 1000, [("wind", some 5)]⟩,
   ⟨1, some 11, some 51, some 1001, [("wind", some 7)]⟩,
   ⟨2, some 12, some 52, some 1002, [("wind", some 9)]⟩]

/-! ## Theorems -/

theorem anyLt_true_iff (xs : List (Option ℚ)) (b : ℚ) :
    anyLt xs b = true ↔ ∃ q, some q ∈ xs ∧ q < b := by
  unfold anyLt
  rw [List.any_eq_true]
  constructor
  · rintro ⟨x, hx, hq⟩
    match x with
    | none => simp at hq
    | some q => exact ⟨q, hx, by simpa using hq⟩
  · rintro ⟨q, hq, hlt⟩
    exact ⟨some q, hq, by simpa using hlt⟩

theorem anyGt_true_iff (xs : List (Option ℚ)) (b : ℚ) :
    anyGt xs b = true ↔ ∃ q, some q ∈ xs ∧ b < q := by
  unfold anyGt
  rw [List.any_eq_true]
  constructor
  · rintro ⟨x, hx, hq⟩
    match x with
    | none => simp at hq
    | some q => exact ⟨q, hx, by simpa using hq⟩
  · rintro ⟨q, hq, hlt⟩
    exact ⟨some q, hq, by simpa using hlt⟩

/-- The range of one target column is fully inside `[lo, hi]` (NaN cells
carry no value, so they impose nothing — exactly how the numpy comparisons
of `validate_data` treat them). -/
def colInRange (df : RawDF) (c : String) (lo hi : ℚ) : Prop :=
  ∀ q : ℚ, some q ∈ df.colVals c → lo ≤ q ∧ q ≤ hi

theorem rangeOk_iff (df : RawDF) (c : String) (lo hi : ℚ) :
    (anyLt (df.colVals c) lo = false ∧ anyGt (df.colVals c) hi = false) ↔
      colInRange df c lo hi := by
  rw [← Bool.not_eq_true, ← Bool.not_eq_true, anyLt_true_iff, anyGt_true_iff]
  unfold colInRange
  constructor
  · rintro ⟨hlo, hhi⟩ q hq
    exact ⟨le_of_not_lt (fun h => hlo ⟨q, hq, h⟩),
           le_of_not_lt (fun h => hhi ⟨q, hq, h⟩)⟩
  · rintro h
    exact ⟨fun ⟨q, hq, hlt⟩ => absurd (h q hq).1 (not_le_of_lt hlt),
           fun ⟨q, hq, hlt⟩ => absurd (h q hq).2 (not_le_of_lt hlt)⟩

/-- C8: `validate_data` succeeds exactly when every required column
(`time` plus the three targets) is present and every (non-NaN) target value
lies inside its configured observed range; being a pure function of `df`,
it never mutates the table.  (Missing/NaN values do not trip it — that is
claim C7's subject.) -/
theorem validate_data_ok_iff (df : RawDF) :
    validate_data df = .ok () ↔
      (df.hasCol "time" ∧ df.hasCol "temperature" ∧ df.hasCol "humidity" ∧
        df.hasCol "pressure") ∧
      colInRange df "temperature" (8/5) (103/5) ∧
      colInRange df "humidity" 40 96 ∧
      colInRange df "pressure" (9981/10) (10327/10) := by
  unfold validate_data
  rw [show (["time"] ++ TARGETS) = ["time", "temperature", "humidity", "pressure"]
    from rfl]
  by_cases h1 :
      (["time", "temperature", "humidity", "pressure"].filter
        (fun c => ! df.hasCol c)) = []
  · rw [if_neg (by simp [h1])]
    cases h2 : (anyLt (df.colVals "temperature") (8/5) ||
        anyGt (df.colVals "temperature") (103/5)) with
    | true =>
      rw [if_pos rfl]
      refine iff_of_false (by simp) ?_
      rintro ⟨-, hr, -, -⟩
      rcases Bool.or_eq_true_iff.1 h2 with h | h
      · obtain ⟨q, hq, hlt⟩ := (anyLt_true_iff _ _).1 h
        exact absurd (hr q hq).1 (not_le_of_lt hlt)
      · obtain ⟨q, hq, hlt⟩ := (anyGt_true_iff _ _).1 h
        exact absurd (hr q hq).2 (not_le_of_lt hlt)
    | false =>
      rw [if_neg (by simp)]
      cases h3 : (anyLt (df.colVals "humidity") 40 ||
          anyGt (df.colVals "humidity") 96) with
      | true =>
        rw [if_pos rfl]
        refine iff_of_false (by simp) ?_
        rintro ⟨-, -, hr, -⟩
        rcases Bool.or_eq_true_iff.1 h3 with h | h
        · obtain ⟨q, hq, hlt⟩ := (anyLt_true_iff _ _).1 h
          exact absurd (hr q hq).1 (not_le_of_lt hlt)
        · obtain ⟨q, hq, hlt⟩ := (anyGt_true_iff _ _).1 h
          exact absurd (hr q hq).2 (not_le_of_lt hlt)
      | false =>
        rw [if_neg (by simp)]
        cases h4 : (anyLt (df.colVals "pressure") (9981/10) ||
            anyGt (df.colVals "pressure") (10327/10)) with
        | true =>
          rw [if_pos rfl]
          refine iff_of_false (by simp) ?_
          rintro ⟨-, -, -, hr⟩
          rcases Bool.or_eq_true_iff.1 h4 with h | h
          · obtain ⟨q, hq, hlt⟩ := (anyLt_true_iff _ _).1 h
            exact absurd (hr q hq).1 (not_le_of_lt hlt)
          · obtain ⟨q, hq, hlt⟩ := (anyGt_true_iff _ _).1 h
            exact absurd (hr q hq).2 (not_le_of_lt hlt)
        | false =>
          rw [if_neg (by simp)]
          refine iff_of_true rfl ?_
          have hcols := List.filter_eq_nil_iff.1 h1
          refine ⟨⟨?_, ?_, ?_, ?_⟩, ?_, ?_, ?_⟩
          · simpa using hcols "time" (by simp)
          · simpa using hcols "temperature" (by simp)
          · simpa using hcols "humidity" (by simp)
          · simpa using hcols "pressure" (by simp)
          · exact (rangeOk_iff df "temperature" (8/5) (103/5)).1
              ⟨(Bool.or_eq_false_iff.1 h2).1, (Bool.or_eq_false_iff.1 h2).2⟩
          · exact (rangeOk_iff df "humidity" 40 96).1
              ⟨(Bool.or_eq_false_iff.1 h3).1, (Bool.or_eq_false_iff.1 h3).2⟩
          · exact (rangeOk_iff df "pressure" (9981/10) (10327/10)).1
              ⟨(Bool.or_eq_false_iff.1 h4).1, (Bool.or_eq_false_iff.1 h4).2⟩
  · rw [if_pos (by simpa using h1)]
    refine iff_of_false (by simp) ?_
    rintro ⟨⟨ht, htemp, hhum, hpres⟩, -⟩
    exact h1 (List.filter_eq_nil_iff.2 (by
      intro c hc
      simp only [List.mem_cons, List.not_mem_nil, or_false] at hc
      rcases hc with rfl | rfl | rfl | rfl
      · simp [ht]
      · simp [htemp]
      · simp [hhum]
      · simp [hpres]))

unseal Rat.add Rat.mul Rat.sub Rat.inv in
/-- C7 counterexample: `dfMissingTemp` has a missing (NaN) temperature
value, yet `validate_data` returns without error — NaN passes the numpy
range comparisons, so the validator itself never rejects missing values. -/
theorem validate_data_accepts_missing_target :
    (dfMissingTemp.colVals "temperature").getD 1 (some 0) = none ∧
    validate_data dfMissingTemp = .ok () := by
  constructor
  · rfl
  · decide

/-- C7 (amended): the missing-value rejection lives in `load_data`, one
step after `validate_data`: loading fails whenever some row of the indexed
frame has a missing target value. -/
theorem load_data_rejects_missing (df : RawDF) (i : Nat)
    (hi : i < (df.colVals "time").length)
    (hmiss : (df.rowAt i).temperature = none ∨ (df.rowAt i).humidity = none ∨
      (df.rowAt i).pressure = none) :
    ∃ e, load_data df = .error e := by
  cases hv : validate_data df with
  | error e => exact ⟨e, by unfold load_data; rw [hv]⟩
  | ok u =>
    cases u
    have hmem : df.rowAt i ∈ df.rows :=
      List.mem_map.2 ⟨i, List.mem_range.2 hi, rfl⟩
    have hmem' : df.rowAt i ∈
        List.insertionSort (fun a b => a.time ≤ b.time) df.rows :=
      (List.perm_insertionSort _ _).mem_iff.2 hmem
    have hany : (List.insertionSort (fun a b => a.time ≤ b.time) df.rows).any
        Row.hasMissing = true := by
      rw [List.any_eq_true]
      refine ⟨df.rowAt i, hmem', ?_⟩
      simp only [Row.hasMissing]
      rcases hmiss with h | h | h <;> simp [h]
    refine ⟨"Input data contains missing values", ?_⟩
    unfold load_data
    rw [hv]
    simp only [hany]
    rfl

/-- C7 witness: `load_data` rejects `dfMissingTemp`. -/
theorem load_data_rejects_missing_witness :
    ∃ e, load_data dfMissingTemp = .error e :=
  load_data_rejects_missing dfMissingTemp 1 (by decide) (Or.inl (by decide))

unseal Rat.add Rat.mul Rat.sub Rat.inv in
/-- C6 counterexample: `dfDup` carries the timestamp 0 twice, yet the
pipeline does not fail: `load_data` returns the sorted rows (duplicate
intact) and `make_features` produces a feature table from them. -/
theorem load_data_accepts_duplicate_timestamps :
    load_data dfDup = .ok dupRows ∧
    dupRows.map Row.time = [0, 0, 1] ∧
    ¬ (dupRows.map Row.time).Nodup ∧
    (make_features trivOps dupRows).length = 2 := by
  refine ⟨by decide, by decide, by decide, by decide⟩

/-- C6 (amended): `load_data` sorts the timestamps but never checks them
for duplicates — any table that passes validation and has no missing
values loads successfully, duplicate timestamps or not. -/
theorem load_data_no_duplicate_check (df : RawDF)
    (hv : validate_data df = .ok ())
    (hm : ∀ r ∈ df.rows, r.hasMissing = false) :
    load_data df =
      .ok (List.insertionSort (fun a b => a.time ≤ b.time) df.rows) := by
  unfold load_data
  rw [hv]
  have hany : (List.insertionSort (fun a b => a.time ≤ b.time) df.rows).any
      Row.hasMissing = false := by
    rw [List.any_eq_false]
    intro r hr
    simp [hm r ((List.perm_insertionSort _ _).mem_iff.1 hr)]
  simp only [hany]
  rfl

unseal Rat.add Rat.mul Rat.sub Rat.inv in
/-- C6 witness: `load_data_no_duplicate_check` applied to the duplicated
table `dfDup`. -/
theorem load_data_no_duplicate_check_witness :
    load_data dfDup =
      .ok (List.insertionSort (fun a b => a.time ≤ b.time) dfDup.rows) :=
  load_data_no_duplicate_check dfDup (by decide) (by decide)

unseal Rat.add Rat.mul Rat.sub Rat.inv in
/-- C5 counterexample: called with horizon 0, `predict_days` raises no
error at all — it returns an empty forecast. -/
theorem predict_days_zero_horizon :
    predict_days zeroModels trivOps exRows 0 (9/10) = .ok [] := by
  decide

/-- C5 (amended): `predict_days` never validates the horizon: for any
horizon ≤ 0 (and any input whose feature table is non-empty) it returns
the empty forecast, not an error — `range(days_ahead)` is simply empty. -/
theorem predict_days_nonpositive_horizon (model : ModelSet) (ops : NumOps)
    (latest : List Row) (h : Int) (alpha : ℚ)
    (hne : make_features ops latest ≠ []) (hh : h ≤ 0) :
    predict_days model ops latest h alpha = .ok [] := by
  obtain ⟨s, hs⟩ : ∃ s, (make_features ops latest).getLast? = some s := by
    rw [← Option.isSome_iff_exists, List.getLast?_isSome]
    exact hne
  unfold predict_days
  simp only [hs, Int.toNat_of_nonpos hh]
  rfl

unseal Rat.add Rat.mul Rat.sub Rat.inv in
/-- C5 witness: horizon -1 on concrete data yields the empty forecast. -/
theorem predict_days_nonpositive_horizon_witness :
    predict_days zeroModels trivOps exRows (-1) (1/2) = .ok [] :=
  predict_days_nonpositive_horizon zeroModels trivOps exRows (-1) (1/2)
    (by decide) (by decide)

theorem rolloutFrom_length (model : ModelSet) (d : ℚ) (n : Nat) :
    ∀ (day : Nat) (cur : FRow), (rolloutFrom model d day cur n).length = n := by
  induction n with
  | zero => intro day cur; rfl
  | succ m ih =>
    intro day cur
    rw [rolloutFrom]
    simp [ih]

theorem rolloutFrom_chain (model : ModelSet) (d : ℚ) (n : Nat) :
    ∀ (day : Nat) (cur : FRow),
      List.Chain' (fun p q => p.target_date < q.target_date)
        (rolloutFrom model d day cur n) := by
  induction n with
  | zero => intro day cur; exact List.chain'_nil
  | succ m ih =>
    intro day cur
    rw [rolloutFrom]
    refine List.chain'_cons'.2 ⟨?_, ih (day + 1) _⟩
    intro q hq
    cases m with
    | zero => simp [rolloutFrom] at hq
    | succ k =>
      rw [rolloutFrom] at hq
      simp only [List.head?_cons, Option.mem_def, Option.some.injEq] at hq
      subst hq
      show (d + ((day : ℚ) + 1)) < d + (((day + 1 : Nat) : ℚ) + 1)
      push_cast
      linarith

/-- C2: with a (complete) model set, an input whose feature table is
non-empty, and a horizon ≥ 1, `predict_days` succeeds with exactly
`horizon` forecast points whose `target_date`s are strictly increasing. -/
theorem predict_days_horizon_and_dates (model : ModelSet) (ops : NumOps)
    (latest : List Row) (h : Int) (alpha : ℚ)
    (hne : make_features ops latest ≠ []) (hh : 1 ≤ h) :
    ∃ ps, predict_days model ops latest h alpha = .ok ps ∧
      (ps.length : Int) = h ∧
      List.Chain' (fun p q => p.target_date < q.target_date) ps := by
  obtain ⟨s, hs⟩ : ∃ s, (make_features ops latest).getLast? = some s := by
    rw [← Option.isSome_iff_exists, List.getLast?_isSome]
    exact hne
  refine ⟨rolloutFrom model (((latest.getLast?).map Row.time).getD 0) 0 s
      h.toNat, ?_, ?_, ?_⟩
  · unfold predict_days
    simp only [hs]
  · rw [rolloutFrom_length]
    exact Int.toNat_of_nonneg (le_trans one_pos.le hh)
  · exact rolloutFrom_chain model _ _ 0 s

unseal Rat.add Rat.mul Rat.sub Rat.inv in
/-- C2 witness: horizon 3 on concrete data. -/
theorem predict_days_horizon_and_dates_witness :
    ∃ ps, predict_days zeroModels trivOps exRows 3 (9/10) = .ok ps ∧
      (ps.length : Int) = 3 ∧
      List.Chain' (fun p q => p.target_date < q.target_date) ps :=
  predict_days_horizon_and_dates zeroModels trivOps exRows 3 (9/10)
    (by decide) (by decide)

theorem carried_shift (model : ModelSet) (d : ℚ) (day : Nat) (cur : FRow) :
    ∀ k, carried model d (day + 1) ((stepDay model d day cur).2) k =
      carried model d day cur (k + 1) := by
  intro k
  induction k with
  | zero => rfl
  | succ m ih =>
    rw [carried, ih, show day + 1 + m = day + (m + 1) from by omega]
    rfl

theorem rolloutFrom_getD (model : ModelSet) (d : ℚ) (n : Nat) :
    ∀ (day k : Nat) (cur : FRow), k < n →
      (rolloutFrom model d day cur n).getD k default =
        (stepDay model d (day + k) (carried model d day cur k)).1 := by
  induction n with
  | zero => intro day k cur hk; omega
  | succ m ih =>
    intro day k cur hk
    rw [rolloutFrom]
    cases k with
    | zero => rfl
    | succ j =>
      simp only [List.getD_cons_succ]
      rw [ih (day + 1) j _ (by omega), carried_shift,
        show day + 1 + j = day + (j + 1) from by omega]

/-- C4: after `k + 1` iterations of the rollout loop of `predict_days`,
the carried feature vector's three lag fields equal the central (`pred`)
predictions of the point emitted at iteration `k` — so the inputs of
iteration `k + 1` carry iteration `k`'s central predictions as lags. -/
theorem rollout_lag_feedback (model : ModelSet) (d : ℚ) (cur : FRow)
    (n k : Nat) (hk : k < n) :
    (carried model d 0 cur (k + 1)).temperatureS.lag_1 =
      some (((rolloutFrom model d 0 cur n).getD k default).temperature_pred) ∧
    (carried model d 0 cur (k + 1)).humidityS.lag_1 =
      some (((rolloutFrom model d 0 cur n).getD k default).humidity_pred) ∧
    (carried model d 0 cur (k + 1)).pressureS.lag_1 =
      some (((rolloutFrom model d 0 cur n).getD k default).pressure_pred) := by
  rw [rolloutFrom_getD model d n 0 k cur hk]
  exact ⟨rfl, rfl, rfl⟩

/-- C4 witness: the rollout of length 2 with the all-zero model set. -/
theorem rollout_lag_feedback_witness :
    (carried zeroModels 0 0 default 1).temperatureS.lag_1 =
      some (((rolloutFrom zeroModels 0 0 default 2).getD 0
        default).temperature_pred) ∧
    (carried zeroModels 0 0 default 1).humidityS.lag_1 =
      some (((rolloutFrom zeroModels 0 0 default 2).getD 0
        default).humidity_pred) ∧
    (carried zeroModels 0 0 default 1).pressureS.lag_1 =
      some (((rolloutFrom zeroModels 0 0 default 2).getD 0
        default).pressure_pred) :=
  rollout_lag_feedback zeroModels 0 default 2 0 (by decide)

/-- C10: the rollout loop never touches any field of the carried feature
vector other than the three lag fields: after any number of iterations the
carried vector agrees with the seed on the timestamp, the raw target
columns, the extra columns, the seasonal encodings, and every rolling
statistic. -/
theorem rollout_frame (model : ModelSet) (d : ℚ) (day : Nat) (cur : FRow)
    (k : Nat) :
    (carried model d day cur k).eraseLags = cur.eraseLags := by
  induction k with
  | zero => rfl
  | succ m ih =>
    rw [carried, ← ih]
    rfl

theorem getD_of_take_eq {α : Type} (l1 l2 : List α) (n j : Nat) (d : α)
    (h : l1.take n = l2.take n) (hj : j < n) : l1.getD j d = l2.getD j d := by
  have h1 : (l1.take n)[j]? = (l2.take n)[j]? := by rw [h]
  rw [List.getElem?_take, List.getElem?_take, if_pos hj, if_pos hj] at h1
  rw [List.getD_eq_getElem?_getD, List.getD_eq_getElem?_getD, h1]

/-- C3: causality of the feature computation — the feature row `make_features`
computes at position `i` (`featureRowAt`) depends only on the readings at
positions `≤ i`: two input tables that agree on their first `i + 1` rows get
the identical feature row at position `i`, however the later readings
differ. -/
theorem make_features_causal (ops : NumOps) (rows1 rows2 : List Row) (i : Nat)
    (h : rows1.take (i + 1) = rows2.take (i + 1)) :
    featureRowAt ops rows1 i = featureRowAt ops rows2 i := by
  have hrow : rows1.getD i default = rows2.getD i default :=
    getD_of_take_eq _ _ _ _ _ h (Nat.lt_succ_self i)
  have hcol : ∀ (f : Row → Option ℚ) (j : Nat), j < i + 1 →
      (rows1.map f).getD j none = (rows2.map f).getD j none := by
    intro f j hj
    refine getD_of_take_eq _ _ (i + 1) j none ?_ hj
    rw [← List.map_take, ← List.map_take, h]
  have hstats : ∀ f : Row → Option ℚ,
      statsAt ops (rows1.map f) i = statsAt ops (rows2.map f) i := by
    intro f
    have hobs : rollingObs (rows1.map f) i = rollingObs (rows2.map f) i := by
      unfold rollingObs
      apply List.filterMap_congr
      intro j hj
      exact hcol f j (List.mem_range.1 (List.mem_filter.1 hj).1)
    have hlag : (rows1.map f).getD (i - 1) none =
        (rows2.map f).getD (i - 1) none :=
      hcol f (i - 1) (by omega)
    unfold statsAt
    rw [hobs, hlag]
  unfold featureRowAt
  rw [hrow, hstats Row.temperature, hstats Row.humidity, hstats Row.pressure]

unseal Rat.add Rat.mul Rat.sub Rat.inv in
/-- C3 witness: `exRows3` and `exRows3'` agree on rows 0 and 1 and differ
at row 2; the feature rows at position 1 coincide. -/
theorem make_features_causal_witness :
    featureRowAt trivOps exRows3 1 = featureRowAt trivOps exRows3' 1 :=
  make_features_causal trivOps exRows3 exRows3' 1 (by decide)

theorem length_filterMap_of_isSome {α β : Type} (f : α → Option β) :
    ∀ l : List α, (∀ a ∈ l, (f a).isSome) →
      (l.filterMap f).length = l.length := by
  intro l
  induction l with
  | nil => intro; rfl
  | cons a t ih =>
    intro h
    rw [List.filterMap_cons]
    obtain ⟨b, hb⟩ := Option.isSome_iff_exists.1 (h a (by simp))
    rw [hb]
    simp only [List.length_cons]
    rw [ih (fun x hx => h x (by simp [hx]))]

theorem getD_isSome_of_lt {α : Type} (l : List (Option α)) (j : Nat)
    (hj : j < l.length) (h : ∀ x ∈ l, x.isSome) : (l.getD j none).isSome := by
  rw [List.getD_eq_getElem?_getD, List.getElem?_eq_getElem hj]
  exact h _ (List.getElem_mem hj)

theorem rollingObs_length_eq (vals : List (Option ℚ)) (i : Nat)
    (hi : i < vals.length) (hv : ∀ x ∈ vals, x.isSome) :
    (rollingObs vals i).length =
      ((List.range (i + 1)).filter (fun j => i ≤ j + 6)).length := by
  unfold rollingObs
  apply length_filterMap_of_isSome
  intro j hj
  have hji : j < i + 1 := List.mem_range.1 (List.mem_filter.1 hj).1
  exact getD_isSome_of_lt vals j (by omega) hv

theorem two_le_rollingObs_length (vals : List (Option ℚ)) (i : Nat)
    (hi : i < vals.length) (hv : ∀ x ∈ vals, x.isSome) (h1 : 1 ≤ i) :
    2 ≤ (rollingObs vals i).length := by
  rw [rollingObs_length_eq vals i hi hv]
  set fr := (List.range (i + 1)).filter (fun j => i ≤ j + 6) with hfr
  have hnd : fr.Nodup := (List.nodup_range _).filter _
  have hmem : i ∈ fr := by
    rw [hfr, List.mem_filter]
    exact ⟨List.mem_range.2 (by omega), by simp⟩
  have hmem' : i - 1 ∈ fr := by
    rw [hfr, List.mem_filter]
    refine ⟨List.mem_range.2 (by omega), ?_⟩
    simp only [decide_eq_true_eq]
    omega
  have hcard : fr.toFinset.card = fr.length := List.toFinset_card_of_nodup hnd
  have h2 : 2 ≤ fr.toFinset.card := by
    rw [show (2 : Nat) = 1 + 1 from rfl]
    refine Finset.one_lt_card.2 ⟨i, ?_, i - 1, ?_, by omega⟩ <;>
      simpa [List.mem_toFinset] using (by assumption)
  omega

theorem statsAt_no_nan (ops : NumOps) (vals : List (Option ℚ)) (i : Nat)
    (hi : i < vals.length) (hv : ∀ x ∈ vals, x.isSome) (h1 : 1 ≤ i) :
    (statsAt ops vals i).hasNaN = false := by
  have h2 : 2 ≤ (rollingObs vals i).length :=
    two_le_rollingObs_length vals i hi hv h1
  have hne : rollingObs vals i ≠ [] := by
    intro hnil
    rw [hnil] at h2
    simp at h2
  have hlag : (vals.getD (i - 1) none).isSome :=
    getD_isSome_of_lt vals (i - 1) (by omega) hv
  obtain ⟨a, t, hobs⟩ : ∃ a t, rollingObs vals i = a :: t := by
    cases hx : rollingObs vals i with
    | nil => exact absurd hx hne
    | cons a t => exact ⟨a, t, rfl⟩
  unfold statsAt TStats.hasNaN
  simp only [hobs, List.min?_cons, List.max?_cons]
  rw [if_neg (by simp), if_pos (by rw [← hobs]; exact h2),
    if_neg (by omega)]
  obtain ⟨q, hq⟩ := Option.isSome_iff_exists.1 hlag
  rw [List.getD_eq_getElem?_getD] at hq
  simp [hq]

theorem statsAt_lag_zero (ops : NumOps) (vals : List (Option ℚ)) :
    (statsAt ops vals 0).lag_1 = none := by
  unfold statsAt
  simp

theorem featureRowAt_zero_nan (ops : NumOps) (rows : List Row) :
    (featureRowAt ops rows 0).hasNaN = true := by
  unfold FRow.hasNaN
  have : (featureRowAt ops rows 0).temperatureS.lag_1 = none :=
    statsAt_lag_zero ops _
  simp [TStats.hasNaN, this]

theorem featureRowAt_no_nan (ops : NumOps) (rows : List Row) (i : Nat)
    (hi : i < rows.length) (h1 : 1 ≤ i)
    (hall : ∀ r ∈ rows, r.allDefined = true) :
    (featureRowAt ops rows i).hasNaN = false := by
  have hmem : rows.getD i default ∈ rows := by
    rw [List.getD_eq_getElem?_getD, List.getElem?_eq_getElem hi]
    exact List.getElem_mem hi
  have hdef := hall _ hmem
  unfold Row.allDefined at hdef
  simp only [Bool.and_eq_true, List.all_eq_true] at hdef
  have hcol : ∀ f : Row → Option ℚ, (∀ r : Row, r.allDefined = true →
      (f r).isSome) → ∀ x ∈ rows.map f, x.isSome := by
    intro f hf x hx
    obtain ⟨r, hr, rfl⟩ := List.mem_map.1 hx
    exact hf r (hall r hr)
  have hlen : ∀ f : Row → Option ℚ, i < (rows.map f).length := by
    intro f
    simpa using hi
  have hstats : ∀ f : Row → Option ℚ, (∀ r : Row, r.allDefined = true →
      (f r).isSome) → (statsAt ops (rows.map f) i).hasNaN = false := by
    intro f hf
    exact statsAt_no_nan ops _ i (hlen f) (hcol f hf) h1
  have hft : ∀ r : Row, r.allDefined = true → r.temperature.isSome := by
    intro r hr
    unfold Row.allDefined at hr
    simp only [Bool.and_eq_true] at hr
    exact hr.1.1.1
  have hfh : ∀ r : Row, r.allDefined = true → r.humidity.isSome := by
    intro r hr
    unfold Row.allDefined at hr
    simp only [Bool.and_eq_true] at hr
    exact hr.1.1.2
  have hfp : ∀ r : Row, r.allDefined = true → r.pressure.isSome := by
    intro r hr
    unfold Row.allDefined at hr
    simp only [Bool.and_eq_true] at hr
    exact hr.1.2
  unfold FRow.hasNaN
  have et : (featureRowAt ops rows i).temperature = (rows.getD i default).temperature := rfl
  have eh : (featureRowAt ops rows i).humidity = (rows.getD i default).humidity := rfl
  have ep : (featureRowAt ops rows i).pressure = (rows.getD i default).pressure := rfl
  have ee : (featureRowAt ops rows i).extra = (rows.getD i default).extra := rfl
  have est : (featureRowAt ops rows i).temperatureS =
    statsAt ops (rows.map Row.temperature) i := rfl
  have esh : (featureRowAt ops rows i).humidityS =
    statsAt ops (rows.map Row.humidity) i := rfl
  have esp : (featureRowAt ops rows i).pressureS =
    statsAt ops (rows.map Row.pressure) i := rfl
  rw [et, eh, ep, ee, est, esh, esp]
  rw [hstats Row.temperature hft, hstats Row.humidity hfh,
    hstats Row.pressure hfp]
  obtain ⟨qt, hqt⟩ := Option.isSome_iff_exists.1 (hft _ (hall _ hmem))
  obtain ⟨qh, hqh⟩ := Option.isSome_iff_exists.1 (hfh _ (hall _ hmem))
  obtain ⟨qp, hqp⟩ := Option.isSome_iff_exists.1 (hfp _ (hall _ hmem))
  simp only [hqt, hqh, hqp]
  simp only [List.any_eq_true, decide_eq_true_eq]
  have hextra : ∀ p ∈ (rows.getD i default).extra, ¬ p.2 = none := by
    intro p hp
    have := hdef.2 p hp
    simp only [Option.isSome_iff_exists] at this
    obtain ⟨q, hq⟩ := this
    simp [hq]
  simp
  rw [List.getD_eq_getElem?_getD] at hextra
  intro x hx
  exact hextra (x, none) hx rfl

theorem make_features_eq_drop (ops : NumOps) (rows : List Row)
    (hall : ∀ r ∈ rows, r.allDefined = true) :
    make_features ops rows =
      ((List.range rows.length).drop 1).map (featureRowAt ops rows) := by
  unfold make_features
  cases hn : rows.length with
  | zero => rfl
  | succ m =>
    rw [List.range_succ_eq_map, List.map_cons, List.filter_cons]
    rw [if_neg (by simp [featureRowAt_zero_nan])]
    simp only [List.drop_succ_cons, List.drop_zero, List.map_map]
    rw [List.filter_eq_self.2]
    intro fr hfr
    obtain ⟨j, hj, rfl⟩ := List.mem_map.1 hfr
    have hjm : j < m := List.mem_range.1 hj
    simp only [Function.comp_apply]
    rw [featureRowAt_no_nan ops rows (j + 1) (by omega) (by omega) hall]
    rfl

/-- C1: on an input table with no missing values anywhere, the final
`dropna` of `make_features` eliminates exactly the first chronological row
(the only row whose lag — and single-sample rolling std — is NaN), and no
surviving feature row has an undefined lag. -/
theorem make_features_drops_exactly_first (ops : NumOps) (rows : List Row)
    (hall : ∀ r ∈ rows, r.allDefined = true) :
    (make_features ops rows).map FRow.time = (rows.map Row.time).drop 1 ∧
    ∀ fr ∈ make_features ops rows, fr.temperatureS.lag_1.isSome ∧
      fr.humidityS.lag_1.isSome ∧ fr.pressureS.lag_1.isSome := by
  constructor
  · rw [make_features_eq_drop ops rows hall, List.map_map]
    apply List.ext_getElem
    · simp
    · intro k h1 h2
      simp only [List.getElem_map, List.getElem_drop, Function.comp_apply,
        List.getElem_range]
      have hk : 1 + k < rows.length := by
        simp at h1
        omega
      show (featureRowAt ops rows (1 + k)).time = _
      have : (featureRowAt ops rows (1 + k)).time =
          (rows.getD (1 + k) default).time := rfl
      rw [this, List.getD_eq_getElem?_getD, List.getElem?_eq_getElem hk]
      rfl
  · intro fr hfr
    have hpass := (List.mem_filter.1 hfr).2
    have hnan : fr.hasNaN = false := by
      cases hx : fr.hasNaN
      · rfl
      · rw [hx] at hpass
        simp at hpass
    simp [FRow.hasNaN, TStats.hasNaN] at hnan
    refine ⟨?_, ?_, ?_⟩ <;> rw [Option.isSome_iff_ne_none]
    · tauto
    · tauto
    · tauto

unseal Rat.add Rat.mul Rat.sub Rat.inv in
/-- C1 witness: the three-row table `exRows3` (extras included, nothing
missing). -/
theorem make_features_drops_exactly_first_witness :
    (make_features trivOps exRows3).map FRow.time =
      (exRows3.map Row.time).drop 1 ∧
    ∀ fr ∈ make_features trivOps exRows3, fr.temperatureS.lag_1.isSome ∧
      fr.humidityS.lag_1.isSome ∧ fr.pressureS.lag_1.isSome :=
  make_features_drops_exactly_first trivOps exRows3 (by decide)

theorem map_getD {α β : Type} (f : α → β) :
    ∀ (l : List α) (i : Nat) (d : α), f (l.getD i d) = (l.map f).getD i (f d)
  | [], _, _ => rfl
  | _ :: _, 0, _ => rfl
  | _ :: t, i + 1, d => map_getD f t i d

unseal Rat.add Rat.mul Rat.sub Rat.inv in
/-- C9 counterexample: `extraRowsA` and `extraRowsB` agree on timestamp and
all three targets and differ only in the extra column `wind`; yet the
training input matrices differ (the extra column survives
`drop(TARGETS, axis=1)`) and `predict_days` — with an estimator that reads
the extra column — returns different forecasts.  Extra fields are not
ignored downstream. -/
theorem extras_not_ignored :
    extraRowsA.map Row.time = extraRowsB.map Row.time ∧
    extraRowsA.map Row.temperature = extraRowsB.map Row.temperature ∧
    extraRowsA.map Row.humidity = extraRowsB.map Row.humidity ∧
    extraRowsA.map Row.pressure = extraRowsB.map Row.pressure ∧
    train_X trivOps extraRowsA ≠ train_X trivOps extraRowsB ∧
    predict_days windModels trivOps extraRowsA 1 (9/10) ≠
      predict_days windModels trivOps extraRowsB 1 (9/10) := by
  refine ⟨by decide, by decide, by decide, by decide, by decide, by decide⟩

/-- C9 (amended): extra fields are carried verbatim into every feature row
(and into the model input, since only the targets are dropped); every
other feature field depends solely on the timestamp and target columns.
So agreement on timestamp + targets gives agreement of everything except
the extra columns, and full agreement requires the extras to agree too. -/
theorem extras_enter_model_input (ops : NumOps) (rows1 rows2 : List Row)
    (i : Nat)
    (ht : rows1.map Row.time = rows2.map Row.time)
    (htemp : rows1.map Row.temperature = rows2.map Row.temperature)
    (hhum : rows1.map Row.humidity = rows2.map Row.humidity)
    (hpres : rows1.map Row.pressure = rows2.map Row.pressure) :
    (featureRowAt ops rows1 i).eraseExtra =
      (featureRowAt ops rows2 i).eraseExtra ∧
    (featureRowAt ops rows1 i).extra = (rows1.getD i default).extra ∧
    (featureRowAt ops rows2 i).extra = (rows2.getD i default).extra := by
  have htime : (rows1.getD i default).time = (rows2.getD i default).time := by
    rw [map_getD Row.time rows1 i default, map_getD Row.time rows2 i default,
      ht]
  have hteq : (rows1.getD i default).temperature =
      (rows2.getD i default).temperature := by
    rw [map_getD Row.temperature rows1 i default,
      map_getD Row.temperature rows2 i default, htemp]
  have hheq : (rows1.getD i default).humidity =
      (rows2.getD i default).humidity := by
    rw [map_getD Row.humidity rows1 i default,
      map_getD Row.humidity rows2 i default, hhum]
  have hpeq : (rows1.getD i default).pressure =
      (rows2.getD i default).pressure := by
    rw [map_getD Row.pressure rows1 i default,
      map_getD Row.pressure rows2 i default, hpres]
  refine ⟨?_, rfl, rfl⟩
  ext : 1
  · exact htime
  · exact hteq
  · exact hheq
  · exact hpeq
  · rfl
  · show ops.sin (2 * ops.pi * ops.month (rows1.getD i default).time / 12) =
      ops.sin (2 * ops.pi * ops.month (rows2.getD i default).time / 12)
    rw [htime]
  · show ops.cos (2 * ops.pi * ops.month (rows1.getD i default).time / 12) =
      ops.cos (2 * ops.pi * ops.month (rows2.getD i default).time / 12)
    rw [htime]
  · show ops.sin (2 * ops.pi * ops.dayOfYear (rows1.getD i default).time / 365)
      = ops.sin (2 * ops.pi * ops.dayOfYear (rows2.getD i default).time / 365)
    rw [htime]
  · show ops.cos (2 * ops.pi * ops.dayOfYear (rows1.getD i default).time / 365)
      = ops.cos (2 * ops.pi * ops.dayOfYear (rows2.getD i default).time / 365)
    rw [htime]
  · show statsAt ops (rows1.map Row.temperature) i =
      statsAt ops (rows2.map Row.temperature) i
    rw [htemp]
  · show statsAt ops (rows1.map Row.humidity) i =
      statsAt ops (rows2.map Row.humidity) i
    rw [hhum]
  · show statsAt ops (rows1.map Row.pressure) i =
      statsAt ops (rows2.map Row.pressure) i
    rw [hpres]

unseal Rat.add Rat.mul Rat.sub Rat.inv in
/-- C9 witness: the amended statement at `extraRowsA` / `extraRowsB`,
position 1. -/
theorem extras_enter_model_input_witness :
    (featureRowAt trivOps extraRowsA 1).eraseExtra =
      (featureRowAt trivOps extraRowsB 1).eraseExtra ∧
    (featureRowAt trivOps extraRowsA 1).extra =
      (extraRowsA.getD 1 default).extra ∧
    (featureRowAt trivOps extraRowsB 1).extra =
      (extraRowsB.getD 1 default).extra :=
  extras_enter_model_input trivOps extraRowsA extraRowsB 1
    (by decide) (by decide) (by decide) (by decide)

end WeatherForecast
